import Mathlib

/-!
Shallow embedding of the study-mode SRS engine of the subless repository.

The embedded code is `src/extension/src/controllers/srs-controller.ts`
(class SrsController) and `src/extension/src/services/study-overlay.ts`
(class StudyOverlay, method handleSubmit).  External capabilities that the
controller merely calls (the morphological tokenizer, the token selector,
the flashcard knowledge source, the priority calculator) live in other
packages and are modelled as abstract function parameters collected in `Env`.

Conventions of the embedding:
- JS numbers used as millisecond timestamps are `Int`; fractional second
  arithmetic is carried out in `Rat` (exact where the source uses floats).
- JS `Map` objects are association lists (`assocGet`/`assocSet`), which
  reproduces insertion-order update-in-place semantics of `Map.set`.
- JS `Set` objects are duplicate-free lists (`addToSet`/`removeSet`).
- Async code is sequential in the source (single event loop, every await
  sequenced), so it is embedded by explicit state passing; a JS exception
  is the `Except Unit` error value.
- UI-only effects (overlay rendering, indicator updates, pausing the
  video) are dropped, except the user-visible error notification, which is
  recorded in the `notifications` field of the state.
-/

set_option maxRecDepth 8000

/-- Word type reported by the tokenizer: dictionary word or unknown word. -/
inductive WordType
  | known
  | unknown
deriving Repr, DecidableEq

/-- TokenPart, as produced by the tokenizer backends (see the kuromoji
worker: text, reading, pos, wordType; basicForm used for lemma lookup). -/
structure TokenPart where
  text : String
  reading : Option String
  pos : Option String
  wordType : Option WordType
  basicForm : Option String
deriving Repr, DecidableEq

/-- LineStatus union type of srs-controller.ts. -/
inductive LineStatus
  | pass
  | fail
  | incomplete
deriving Repr, DecidableEq

/-- LineTestInfo of srs-controller.ts. -/
structure LineTestInfo where
  subtitleIndex : Nat
  status : LineStatus
  tokens : Option (List TokenPart)
  blankedIndices : Option (List Nat)
deriving Repr, DecidableEq

/-- VideoSession of the study-mode package, as used by the controller. -/
structure VideoSession where
  videoSrc : String
  studiedLineIndices : List Nat
  cardsShownCount : Nat
  lastCardTime : Int
deriving Repr, DecidableEq

/-- StudyTestDisplayState of study-overlay.ts. -/
structure StudyTestDisplayState where
  tokens : List TokenPart
  blankedIndices : List Nat
  userAnswers : List String
  showingResult : Bool
  resultCorrect : Bool
  answerResults : Option (List Bool)
deriving Repr, DecidableEq

/-- SubtitleModel as consumed by onSubtitleShown (index may be undefined). -/
structure SubtitleModel where
  text : String
  index : Option Nat
  startTime : Int
  endTime : Int
deriving Repr, DecidableEq

/-- IndexedSubtitleModel: a subtitle whose index is known to exist. -/
structure IndexedSubtitle where
  text : String
  index : Nat
  startTime : Int
  endTime : Int
deriving Repr, DecidableEq

/-- StudyDeckConfig: a deck identifier with an enabled flag. -/
structure StudyDeckConfig where
  deckName : String
  enabled : Bool
deriving Repr, DecidableEq

/-- Combined knowledge status returned by the flashcard lookup. -/
inductive AnkiStatus
  | uncollected
  | new
  | learning
  | young
  | mature
deriving Repr, DecidableEq

/-- Recognition statistics returned by the recognition repository. -/
structure RecognitionStats where
  attempts : Nat
  successes : Nat
deriving Repr, DecidableEq

/-- One record written to the study repository per tested blank. -/
structure StudyRecord where
  lemmaForm : String
  reading : String
  surfaceForm : String
  result : String
  timestamp : Int
  sentenceContext : String
  mediaSource : String
deriving Repr, DecidableEq

/-- One entry of a batched recognition write. -/
structure RecognitionAttempt where
  lemmaForm : String
  reading : String
  success : Bool
deriving Repr, DecidableEq

/-- The settings record loaded by updateSettings (UI-only fields omitted). -/
structure StudySettings where
  studyModeEnabled : Bool
  studyModeFrequency : Nat
  studyModeLineSelection : String
  studyModeTokenSelection : String
  studyModeIncludeConjugations : Bool
  studyModeTrackResults : Bool
  studyModeDecks : List StudyDeckConfig
  studyModeIntensity : String
  studyModeRateLimitSeconds : Rat
  studyModeFocusMode : String
deriving Repr, DecidableEq

/-- External collaborators of the controller.  These functions abstract the
pluggable backends the controller calls but does not implement: the
tokenizer, getTestableIndices and TokenSelector.selectTokensToBlank,
getAnkiStatus, RecognitionRepository.getStats and PriorityCalculator from
the study-mode package, and the settings store read by updateSettings. -/
structure Env where
  settings : StudySettings
  createTokenizerSucceeds : Bool
  tokenize : String → Except Unit (List (List TokenPart))
  getTestableIndices : List TokenPart → List Nat
  selectTokensToBlank : List TokenPart → String → Bool → Nat → List Nat
  getAnkiStatus : List String → Except Unit AnkiStatus
  getRecognitionStats : String → Except Unit RecognitionStats
  calculatePriority : String → AnkiStatus → RecognitionStats → Rat
  shouldTriggerStudyCard : Rat → String → Bool

/-- The mutable fields of SrsController (plus the persisted record lists of
the repositories and the emitted notifications, so that effects of the
lifecycle are observable). -/
structure SrsState where
  lineCount : Nat
  enabled : Bool
  frequency : Nat
  lineSelectionStrategy : String
  tokenSelectionStrategy : String
  includeConjugations : Bool
  trackResults : Bool
  studyDecks : List StudyDeckConfig
  intensity : String
  rateLimitSeconds : Rat
  focusMode : String
  hasTokenizer : Bool
  hasAnkiApi : Bool
  videoSrc : String
  currentSession : Option VideoSession
  lineStatusCache : List (String × List (Nat × LineTestInfo))
  testLineIndices : List Nat
  currentSubtitle : Option IndexedSubtitle
  currentTestTimeframe : Option (Int × Int)
  currentDisplayState : Option StudyTestDisplayState
  testCompleted : Bool
  answerSubmitted : Bool
  showing : Bool
  forceHideSubtitles : Bool
  mobileForceHide : Bool
  studyRecords : List StudyRecord
  recognitionBatches : List (List RecognitionAttempt)
  notifications : List String
deriving Repr, DecidableEq

/-- Lookup in an association list, first match wins (JS Map.get). -/
def assocGet {α β : Type} [DecidableEq α] (k : α) : List (α × β) → Option β
  | [] => none
  | (k₀, v₀) :: rest => if k₀ = k then some v₀ else assocGet k rest

/-- Update-or-append in an association list (JS Map.set). -/
def assocSet {α β : Type} [DecidableEq α] (k : α) (v : β) :
    List (α × β) → List (α × β)
  | [] => [(k, v)]
  | (k₀, v₀) :: rest =>
    if k₀ = k then (k, v) :: rest else (k₀, v₀) :: assocSet k v rest

/-- JS Set.add: insert only when absent, preserving insertion order. -/
def addToSet (l : List Nat) (x : Nat) : List Nat :=
  if x ∈ l then l else l ++ [x]

/-- JS Set.delete. -/
def removeSet (l : List Nat) (x : Nat) : List Nat :=
  l.filter (fun y => y ≠ x)

/-- Whitespace recognized by the JS string trim (ASCII whitespace, NBSP,
BOM); enough for every string the engine trims. -/
def isJsWhitespace (c : Char) : Bool :=
  c = ' ' || c = '\t' || c = '\n' || c = '\r' ||
  decide (c.toNat = 0x0B) || decide (c.toNat = 0x0C) ||
  decide (c.toNat = 0xA0) || decide (c.toNat = 0xFEFF)

/-- JS String.prototype.trim, as an executable function on the character
list of the string. -/
def jsTrim (s : String) : String :=
  String.mk (((s.data.dropWhile isJsWhitespace).reverse.dropWhile isJsWhitespace).reverse)

deriving instance DecidableEq for Except

/-- JS `a || b` on an optional string (undefined and the empty string are
falsy). -/
def jsOr (a : Option String) (b : String) : String :=
  match a with
  | some x => if x = "" then b else x
  | none => b

/-- The katakanaToHiragana helper of srs-controller.ts: shift every code
point in the katakana range U+30A1..U+30F6 down by 0x60. -/
def katakanaToHiragana (s : String) : String :=
  String.mk (s.data.map (fun c =>
    if 0x30A1 ≤ c.toNat ∧ c.toNat ≤ 0x30F6 then Char.ofNat (c.toNat - 0x60)
    else c))

/-- getLineStatus: cache lookup keyed by the current video source. -/
def getLineStatus (s : SrsState) (idx : Nat) : Option LineTestInfo :=
  match assocGet s.videoSrc s.lineStatusCache with
  | some inner => assocGet idx inner
  | none => none

/-- The cacheLineStatus helper: create the per-video map when absent, then
set the entry for the line index. -/
def cacheLineStatus (s : SrsState) (idx : Nat) (info : LineTestInfo) : SrsState :=
  let inner := match assocGet s.videoSrc s.lineStatusCache with
    | some m => m
    | none => []
  { s with lineStatusCache := assocSet s.videoSrc (assocSet idx info inner) s.lineStatusCache }

/-- getOrCreateSession: reuse the session when its video source matches,
otherwise start a fresh one (studiedLineIndices empty, lastCardTime 0). -/
def getOrCreateSession (s : SrsState) : VideoSession × SrsState :=
  match s.currentSession with
  | some sess =>
    if sess.videoSrc = s.videoSrc then (sess, s)
    else
      let fresh : VideoSession := ⟨s.videoSrc, [], 0, 0⟩
      (fresh, { s with currentSession := some fresh })
  | none =>
    let fresh : VideoSession := ⟨s.videoSrc, [], 0, 0⟩
    (fresh, { s with currentSession := some fresh })

/-- updateSessionOnCardShown: mark the line studied, bump the card count,
remember the time of this card. -/
def updateSessionOnCardShown (now : Int) (s : SrsState) (idx : Nat) : SrsState :=
  let p := getOrCreateSession s
  { p.2 with currentSession := some ({ p.1 with
        studiedLineIndices := addToSet p.1.studiedLineIndices idx,
        cardsShownCount := p.1.cardsShownCount + 1,
        lastCardTime := now }) }

/-- isRateLimitSatisfied: true when no card was shown yet (sentinel 0) or
at least rateLimitSeconds have elapsed since the last card. -/
def isRateLimitSatisfied (now : Int) (s : SrsState) : Bool × SrsState :=
  let p := getOrCreateSession s
  let timeSinceLastCard : Rat := Rat.divInt (now - p.1.lastCardTime) 1000
  (p.1.lastCardTime == 0 || decide (timeSinceLastCard ≥ p.2.rateLimitSeconds), p.2)

/-- isPrioritySelectionReady: tokenizer, AnkiApi and a nonempty deck list. -/
def isPrioritySelectionReady (s : SrsState) : Bool :=
  s.hasTokenizer && s.hasAnkiApi && decide (s.studyDecks.length > 0)

/-- Candidate lemma list built by calculateLinePriorityScore: basicForm,
then the surface text when different, then the hiragana-folded reading when
not already present.  Truthiness of the JS strings is modelled by the
empty-string checks. -/
def candidateLemmas (token : TokenPart) : List String :=
  let c1 : List String := match token.basicForm with
    | some b => if b ≠ "" then [b] else []
    | none => []
  let c2 : List String :=
    if token.text ≠ "" ∧ token.basicForm ≠ some token.text then c1 ++ [token.text] else c1
  match token.reading with
  | some r =>
    if r ≠ "" then
      let h := katakanaToHiragana r
      if h ∈ c2 then c2 else c2 ++ [h]
    else c2
  | none => c2

/-- calculateLinePriorityScore: sum the per-token priorities; Anki lookup
failures fall back to uncollected, recognition lookup failures propagate
(they are caught by the caller). -/
def calculateLinePriorityScore (env : Env) (s : SrsState)
    (tokens : List TokenPart) : Except Unit Rat :=
  tokens.foldlM (fun totalScore token => do
    let candidates := candidateLemmas token
    let ankiStatus :=
      if s.hasAnkiApi && decide (s.studyDecks.length > 0) then
        match env.getAnkiStatus candidates with
        | .ok st => st
        | .error _ => AnkiStatus.uncollected
      else AnkiStatus.uncollected
    let primaryLemma := jsOr token.basicForm token.text
    let recognitionStats ← env.getRecognitionStats primaryLemma
    let priority := env.calculatePriority primaryLemma ankiStatus recognitionStats
    pure (totalScore + priority)) 0

/-- The prioritize_unknown branch of shouldTestLine: tokenize, filter to
testable tokens, score, compare against the intensity threshold; any thrown
error yields false. -/
def priorityDecision (env : Env) (s : SrsState) (text : String) : Bool :=
  match env.tokenize text with
  | .error _ => false
  | .ok tokenGroups =>
    let tokens := tokenGroups.flatten
    let testable := tokens.filter (fun t =>
      decide (t.pos ≠ some "記号") && decide (jsTrim t.text ≠ "") &&
      decide (t.wordType = none ∨ t.wordType = some WordType.known))
    if testable = [] then false
    else
      match calculateLinePriorityScore env s testable with
      | .error _ => false
      | .ok lineScore => env.shouldTriggerStudyCard lineScore s.intensity

/-- shouldTestLine: refuse lines already studied this session, then lines
inside the rate limit; under the random strategy test every frequency-th
line; otherwise require the priority machinery to be ready and delegate to
the priority scoring (never falling back to the cadence rule).  With
frequency 0 the JS modulo is NaN and the comparison is false; here
lineCount % 0 = lineCount, which is nonzero at every call site because the
counter is incremented before this check, so the two agree. -/
def shouldTestLine (env : Env) (now : Int) (s : SrsState)
    (text : String) (idx : Nat) : Bool × SrsState :=
  let p := getOrCreateSession s
  if idx ∈ p.1.studiedLineIndices then (false, p.2)
  else
    let q := isRateLimitSatisfied now p.2
    if !q.1 then (false, q.2)
    else if q.2.lineSelectionStrategy = "random" then
      (decide (q.2.lineCount % q.2.frequency = 0), q.2)
    else if !isPrioritySelectionReady q.2 then (false, q.2)
    else (priorityDecision env q.2 text, q.2)

/-- updateSettings: load every study-mode setting from the settings store
and retry tokenizer initialization when it is missing. -/
def applyUpdateSettings (env : Env) (s : SrsState) : SrsState :=
  { s with
    enabled := env.settings.studyModeEnabled,
    frequency := env.settings.studyModeFrequency,
    lineSelectionStrategy := env.settings.studyModeLineSelection,
    tokenSelectionStrategy := env.settings.studyModeTokenSelection,
    includeConjugations := env.settings.studyModeIncludeConjugations,
    trackResults := env.settings.studyModeTrackResults,
    studyDecks := env.settings.studyModeDecks,
    intensity := env.settings.studyModeIntensity,
    rateLimitSeconds := env.settings.studyModeRateLimitSeconds,
    focusMode := env.settings.studyModeFocusMode,
    hasTokenizer := s.hasTokenizer || env.createTokenizerSucceeds }

/-- The tokenize-and-select part of showTest: flatten the token groups,
skip the line (returning none) when there are no tokens, no testable
tokens, or no blanked indices; a tokenizer throw propagates as error. -/
def freshSelection (env : Env) (s : SrsState) (text : String) :
    Except Unit (Option (List TokenPart × List Nat)) :=
  match env.tokenize text with
  | .error e => .error e
  | .ok tokenGroups =>
    let tokens := tokenGroups.flatten
    if tokens = [] then .ok none
    else
      let testableIndices := env.getTestableIndices tokens
      if testableIndices = [] then .ok none
      else
        let blankedIndices :=
          env.selectTokensToBlank tokens s.tokenSelectionStrategy s.includeConjugations 3
        if blankedIndices = [] then .ok none
        else .ok (some (tokens, blankedIndices))

/-- The token choice of showTest: when the cached entry carries both the
tokens and the blanked indices they are reused verbatim, otherwise the line
is tokenized afresh. -/
def chooseTokens (env : Env) (s : SrsState) (text : String)
    (existingTest : Option LineTestInfo) :
    Except Unit (Option (List TokenPart × List Nat)) :=
  match existingTest with
  | some info =>
    match info.tokens, info.blankedIndices with
    | some ts, some bs => .ok (some (ts, bs))
    | _, _ => freshSelection env s text
  | none => freshSelection env s text

/-- The body of the try block of showTest: reuse cached tokens and blanked
indices when both are present, otherwise tokenize afresh; on a usable
selection cache the incomplete entry, set up the timeframe and the display
state, hide the subtitles and show the overlay. -/
def attemptShow (env : Env) (s : SrsState) (sub : IndexedSubtitle)
    (existingTest : Option LineTestInfo) : Except Unit (Bool × SrsState) :=
  match chooseTokens env s sub.text existingTest with
  | .error e => .error e
  | .ok none =>
    .ok (false, { s with testLineIndices := removeSet s.testLineIndices sub.index })
  | .ok (some (tokens, blankedIndices)) =>
    let s1 := cacheLineStatus s sub.index
      ⟨sub.index, LineStatus.incomplete, some tokens, some blankedIndices⟩
    .ok (true, { s1 with
      currentTestTimeframe := some (sub.startTime, sub.endTime),
      testCompleted := false,
      currentDisplayState := some
        ⟨tokens, blankedIndices, blankedIndices.map (fun _ => ""), false, false, none⟩,
      forceHideSubtitles := true,
      mobileForceHide := true,
      showing := true })

/-- The retry step at the top of showTest: when the tokenizer is missing,
updateSettings is run again (reloading settings and retrying tokenizer
creation). -/
def retryTokenizerInit (env : Env) (s : SrsState) : SrsState :=
  if s.hasTokenizer then s else applyUpdateSettings env s

/-- showTest: retry settings/tokenizer initialization when the tokenizer is
missing; if it is still missing, surface the error notification and clear
the pending marker; otherwise run the try block, clearing the pending
marker when it throws. -/
def showTest (env : Env) (s : SrsState) (sub : IndexedSubtitle)
    (existingTest : Option LineTestInfo) : Bool × SrsState :=
  let s0 := retryTokenizerInit env s
  if !s0.hasTokenizer then
    (false, { s0 with
      notifications := s0.notifications ++ ["error.studyModeNoTokenizer"],
      testLineIndices := removeSet s0.testLineIndices sub.index })
  else
    match attemptShow env s0 sub existingTest with
    | .ok r => r
    | .error _ =>
      (false, { s0 with testLineIndices := removeSet s0.testLineIndices sub.index })

/-- The positive-decision tail of onSubtitleShown: mark the pending test
line, remember the subtitle, show the test, and update the session when the
test was actually shown. -/
def runTestFlow (env : Env) (now : Int) (s : SrsState) (isub : IndexedSubtitle)
    (existingTest : Option LineTestInfo) : Bool × SrsState :=
  let st := shouldTestLine env now s isub.text isub.index
  if st.1 || (match existingTest with
      | some info => decide (info.status = LineStatus.incomplete)
      | none => false) then
    let s1 := { st.2 with
      testLineIndices := addToSet st.2.testLineIndices isub.index,
      currentSubtitle := some isub }
    let r := showTest env s1 isub existingTest
    (r.1, if r.1 then updateSessionOnCardShown now r.2 isub.index else r.2)
  else (false, st.2)

/-- onSubtitleShown: the entry point called for every subtitle line.  The
returned boolean tells the caller to suppress normal subtitle display. -/
def onSubtitleShown (env : Env) (now : Int) (s : SrsState)
    (sub : SubtitleModel) : Bool × SrsState :=
  if s.showing then (false, s)
  else if !s.enabled || jsTrim sub.text == "" then (false, s)
  else
    match sub.index with
    | none => (false, s)
    | some idx =>
      let isub : IndexedSubtitle := ⟨sub.text, idx, sub.startTime, sub.endTime⟩
      let s1 := { s with lineCount := s.lineCount + 1 }
      match getLineStatus s1 idx with
      | some info =>
        if info.status ≠ LineStatus.incomplete then (false, s1)
        else runTestFlow env now s1 isub (some info)
      | none => runTestFlow env now s1 isub none

/-- One blank of the answer check in handleSubmit: exact trimmed surface
match, then hiragana-folded reading match, then reading of the re-tokenized
answer (only when a tokenizer exists; a throw there counts as incorrect). -/
def checkOne (env : Env) (hasTok : Bool) (token : TokenPart)
    (rawAnswer : String) : Bool :=
  let correctText := jsTrim token.text
  let userAnswer := jsTrim rawAnswer
  if userAnswer = correctText then true
  else
    let expectedReading := katakanaToHiragana (jsOr token.reading token.text)
    if userAnswer = expectedReading then true
    else if hasTok then
      match env.tokenize userAnswer with
      | .ok userTokens =>
        let userReading := String.join ((userTokens.flatten).map
          (fun t => katakanaToHiragana (jsOr t.reading t.text)))
        decide (userReading = expectedReading)
      | .error _ => false
    else false

/-- The answer loop of handleSubmit, walking the blanked indices in order
with the positionally matching answers (missing answers default to the
empty string).  Indexing a token out of range throws, as in the source. -/
def checkAnswersGo (env : Env) (hasTok : Bool) (tokens : List TokenPart) :
    List Nat → List String → Except Unit (List Bool)
  | [], _ => .ok []
  | bi :: rest, answers =>
    match tokens.get? bi with
    | none => .error ()
    | some token =>
      match checkAnswersGo env hasTok tokens rest answers.tail with
      | .error e => .error e
      | .ok rs => .ok (checkOne env hasTok token (answers.headD "") :: rs)

/-- The full answer check of handleSubmit. -/
def checkAnswers (env : Env) (hasTok : Bool) (tokens : List TokenPart)
    (blanked : List Nat) (answers : List String) : Except Unit (List Bool) :=
  checkAnswersGo env hasTok tokens blanked answers

/-- saveStudyRecords: one study record per blank plus one batched
recognition write; save failures are logged and swallowed in the source, so
the embedding records every write. -/
def saveStudyRecords (now : Int) (s : SrsState) (tokens : List TokenPart)
    (blanked : List Nat) (answerResults : List Bool) : SrsState :=
  let sentenceContext := String.join (tokens.map (fun t => t.text))
  let mediaSource := s.videoSrc
  let perBlank := (blanked.zip answerResults).map (fun p =>
    let token := tokens.getD p.1 ⟨"", none, none, none, none⟩
    let lem := jsOr token.basicForm token.text
    let reading := katakanaToHiragana (jsOr token.reading token.text)
    (lem, reading, token.text, p.2))
  { s with
    studyRecords := s.studyRecords ++ perBlank.map (fun r =>
      ⟨r.1, r.2.1, r.2.2.1, if r.2.2.2 then "correct" else "incorrect",
       now, sentenceContext, mediaSource⟩),
    recognitionBatches := s.recognitionBatches ++
      [perBlank.map (fun r => ⟨r.1, r.2.1, r.2.2.2⟩)] }

/-- handleSubmit: guard on an active test and on double submission, check
every answer, persist the results when tracking is on, and switch the
display to the result view carrying the per-blank verdicts. -/
def handleSubmit (env : Env) (now : Int) (s : SrsState)
    (answers : List String) : SrsState :=
  match s.currentSubtitle, s.currentDisplayState with
  | some _, some ds =>
    if s.answerSubmitted then s
    else
      let s1 := { s with answerSubmitted := true }
      match checkAnswers env s1.hasTokenizer ds.tokens ds.blankedIndices answers with
      | .error _ => s1
      | .ok answerResults =>
        let allCorrect := answerResults.all (fun r => r)
        let s2 := if s1.trackResults then
            saveStudyRecords now s1 ds.tokens ds.blankedIndices answerResults
          else s1
        { s2 with
          currentDisplayState := some { ds with
            userAnswers := answers,
            showingResult := true,
            resultCorrect := allCorrect,
            answerResults := some answerResults },
          testCompleted := true }
  | _, _ => s

/-- handleInputChange: record the edited answer, unless the answer was
already submitted. -/
def handleInputChange (s : SrsState) (index : Nat) (value : String) : SrsState :=
  match s.currentDisplayState with
  | none => s
  | some ds =>
    if s.answerSubmitted then s
    else
      let ds1 := { ds with userAnswers := ds.userAnswers.set index value }
      { s with currentDisplayState := some ds1 }

/-- handleContinue: finalize the cached status to pass or fail, clear the
pending marker and every per-test field, restore subtitle display. -/
def handleContinue (s : SrsState) (passed : Bool) : SrsState :=
  match s.currentSubtitle with
  | none => s
  | some sub =>
    let s1 := match getLineStatus s sub.index with
      | some info => cacheLineStatus s sub.index
          { info with status := if passed then LineStatus.pass else LineStatus.fail }
      | none => s
    { s1 with
      testLineIndices := removeSet s1.testLineIndices sub.index,
      forceHideSubtitles := false,
      mobileForceHide := false,
      showing := false,
      currentSubtitle := none,
      currentTestTimeframe := none,
      currentDisplayState := none,
      testCompleted := false,
      answerSubmitted := false }

/-- dismissTestAndRestoreSubtitles: when the test was not completed, revert
the cached status to incomplete; restore subtitle display, clear the
pending marker and every per-test field. -/
def dismissTestAndRestoreSubtitles (s : SrsState) : SrsState :=
  let s1 := match s.currentSubtitle with
    | some sub =>
      if !s.testCompleted then
        match getLineStatus s sub.index with
        | some info => cacheLineStatus s sub.index
            { info with status := LineStatus.incomplete }
        | none => s
      else s
    | none => s
  let s2 := { s1 with
    forceHideSubtitles := false,
    mobileForceHide := false,
    showing := false }
  let s3 := match s2.currentSubtitle with
    | some sub => { s2 with testLineIndices := removeSet s2.testLineIndices sub.index }
    | none => s2
  { s3 with
    currentSubtitle := none,
    currentTestTimeframe := none,
    currentDisplayState := none,
    testCompleted := false,
    answerSubmitted := false }

/-- The state of StudyOverlay that handleSubmit of study-overlay.ts reads. -/
structure OverlayState where
  visible : Bool
  currentState : Option StudyTestDisplayState
deriving Repr, DecidableEq

/-- StudyOverlay handleSubmit: bail out without an active state or without
a container element, copy the DOM input values into the state, and invoke
the onSubmit callback (the returned value) only when every answer is
nonempty after trimming. -/
def overlayHandleSubmit (st : OverlayState) (hasContainer : Bool)
    (domAnswers : List String) : OverlayState × Option (List String) :=
  match st.currentState with
  | none => (st, none)
  | some cs =>
    if !hasContainer then (st, none)
    else
      let st1 := { st with currentState := some { cs with userAnswers := domAnswers } }
      if domAnswers.all (fun a => !(jsTrim a == "")) then (st1, some domAnswers)
      else (st1, none)

/-- A simple concrete token used by the concrete evaluation theorems. -/
def demoToken : TokenPart :=
  { text := "a", reading := some "a", pos := some "n",
    wordType := some WordType.known, basicForm := some "a" }

/-- Concrete settings record for the evaluation environment. -/
def demoSettings : StudySettings :=
  ⟨true, 1, "random", "random", true, true, [], "medium", 10, "balanced"⟩

/-- A concrete environment whose tokenizer always yields one usable token
group and whose token selector always blanks the first token. -/
def demoEnv : Env :=
  { settings := demoSettings
    createTokenizerSucceeds := false
    tokenize := fun _ => .ok [[demoToken]]
    getTestableIndices := fun ts => List.range ts.length
    selectTokensToBlank := fun _ _ _ _ => [0]
    getAnkiStatus := fun _ => .ok AnkiStatus.uncollected
    getRecognitionStats := fun _ => .ok ⟨0, 0⟩
    calculatePriority := fun _ _ _ => 0
    shouldTriggerStudyCard := fun _ _ => false }

/-- A fresh controller state with the given cadence frequency and rate
limit, enabled, with a working tokenizer, on video source v. -/
def initialState (freq : Nat) (rate : Rat) : SrsState :=
  { lineCount := 0, enabled := true, frequency := freq,
    lineSelectionStrategy := "random", tokenSelectionStrategy := "random",
    includeConjugations := true, trackResults := true, studyDecks := [],
    intensity := "medium", rateLimitSeconds := rate, focusMode := "balanced",
    hasTokenizer := true, hasAnkiApi := false, videoSrc := "v",
    currentSession := none, lineStatusCache := [], testLineIndices := [],
    currentSubtitle := none, currentTestTimeframe := none,
    currentDisplayState := none, testCompleted := false,
    answerSubmitted := false, showing := false, forceHideSubtitles := false,
    mobileForceHide := false, studyRecords := [], recognitionBatches := [],
    notifications := [] }

/-- The subtitle with line index i and text a. -/
def subAt (i : Nat) : SubtitleModel := ⟨"a", some i, 0, 1000⟩

/-- Does the current session record the line index as studied? -/
def studiedContains (s : SrsState) (i : Nat) : Bool :=
  match s.currentSession with
  | some sess => decide (i ∈ sess.studiedLineIndices)
  | none => false

/-- Run a list of timestamped onSubtitleShown calls, completing (continuing
with a pass) every test that gets shown, and collect the per-call results. -/
def runWithContinue (env : Env) (s : SrsState)
    (calls : List (Int × SubtitleModel)) : List Bool × SrsState :=
  calls.foldl (fun acc c =>
    let r := onSubtitleShown env c.1 acc.2 c.2
    (acc.1 ++ [r.1], if r.1 then handleContinue r.2 true else r.2)) ([], s)

/-- Twenty subtitle lines all arriving at the same instant. -/
def c2CallsFast : List (Int × SubtitleModel) :=
  (List.range 20).map (fun i => ((1000 : Int), subAt (i + 1)))

/-- Twenty-five subtitle lines spaced twenty seconds apart. -/
def c2CallsSpaced : List (Int × SubtitleModel) :=
  (List.range 25).map (fun i => (20000 * (Int.ofNat i + 1), subAt (i + 1)))


/-! Basic lemmas about the association-list and session helpers. -/

theorem assocGet_assocSet_self {α β : Type} [DecidableEq α] (k : α) (v : β)
    (m : List (α × β)) : assocGet k (assocSet k v m) = some v := by
  induction m with
  | nil => simp [assocGet, assocSet]
  | cons hd tl ih =>
    obtain ⟨k₀, v₀⟩ := hd
    by_cases h : k₀ = k
    · simp [assocSet, h, assocGet]
    · simp [assocSet, h, assocGet, ih]

theorem addToSet_nodup {l : List Nat} {x : Nat} (h : l.Nodup) :
    (addToSet l x).Nodup := by
  unfold addToSet
  split
  · exact h
  · next hx => simp [List.nodup_append, h, hx]

theorem getOrCreateSession_snd (s : SrsState) :
    (getOrCreateSession s).2 = { s with currentSession := some (getOrCreateSession s).1 } := by
  unfold getOrCreateSession
  cases h : s.currentSession with
  | none => rfl
  | some sess =>
    by_cases hv : sess.videoSrc = s.videoSrc
    · simp only [hv, if_true]
      conv_rhs => rw [← h]
    · simp [hv]

theorem getOrCreateSession_fst_videoSrc (s : SrsState) :
    (getOrCreateSession s).1.videoSrc = s.videoSrc := by
  unfold getOrCreateSession
  cases h : s.currentSession with
  | none => rfl
  | some sess =>
    by_cases hv : sess.videoSrc = s.videoSrc
    · simp [hv]
    · simp [hv]

theorem getOrCreateSession_of_match (s : SrsState) (sess : VideoSession)
    (h : s.currentSession = some sess) (hv : sess.videoSrc = s.videoSrc) :
    getOrCreateSession s = (sess, s) := by
  unfold getOrCreateSession
  rw [h]
  simp [hv]

theorem getOrCreateSession_currentSession (s : SrsState) :
    (getOrCreateSession s).2.currentSession = some (getOrCreateSession s).1 := by
  rw [getOrCreateSession_snd]

theorem getOrCreateSession_idem (s : SrsState) :
    getOrCreateSession ((getOrCreateSession s).2)
      = ((getOrCreateSession s).1, (getOrCreateSession s).2) := by
  refine getOrCreateSession_of_match _ _ (getOrCreateSession_currentSession s) ?_
  rw [getOrCreateSession_fst_videoSrc, getOrCreateSession_snd]

theorem shouldTestLine_snd (env : Env) (now : Int) (s : SrsState)
    (text : String) (idx : Nat) :
    (shouldTestLine env now s text idx).2 = (getOrCreateSession s).2 := by
  unfold shouldTestLine isRateLimitSatisfied
  simp only [getOrCreateSession_idem]
  split
  · rfl
  · split_ifs <;> rfl

/-! Projections of the state returned by getOrCreateSession: every field
except currentSession is untouched. -/

@[simp] theorem gocs_lineCount (s : SrsState) :
    (getOrCreateSession s).2.lineCount = s.lineCount := by
  rw [getOrCreateSession_snd]

@[simp] theorem gocs_enabled (s : SrsState) :
    (getOrCreateSession s).2.enabled = s.enabled := by
  rw [getOrCreateSession_snd]

@[simp] theorem gocs_frequency (s : SrsState) :
    (getOrCreateSession s).2.frequency = s.frequency := by
  rw [getOrCreateSession_snd]

@[simp] theorem gocs_lineSelectionStrategy (s : SrsState) :
    (getOrCreateSession s).2.lineSelectionStrategy = s.lineSelectionStrategy := by
  rw [getOrCreateSession_snd]

@[simp] theorem gocs_tokenSelectionStrategy (s : SrsState) :
    (getOrCreateSession s).2.tokenSelectionStrategy = s.tokenSelectionStrategy := by
  rw [getOrCreateSession_snd]

@[simp] theorem gocs_includeConjugations (s : SrsState) :
    (getOrCreateSession s).2.includeConjugations = s.includeConjugations := by
  rw [getOrCreateSession_snd]

@[simp] theorem gocs_trackResults (s : SrsState) :
    (getOrCreateSession s).2.trackResults = s.trackResults := by
  rw [getOrCreateSession_snd]

@[simp] theorem gocs_studyDecks (s : SrsState) :
    (getOrCreateSession s).2.studyDecks = s.studyDecks := by
  rw [getOrCreateSession_snd]

@[simp] theorem gocs_intensity (s : SrsState) :
    (getOrCreateSession s).2.intensity = s.intensity := by
  rw [getOrCreateSession_snd]

@[simp] theorem gocs_rateLimitSeconds (s : SrsState) :
    (getOrCreateSession s).2.rateLimitSeconds = s.rateLimitSeconds := by
  rw [getOrCreateSession_snd]

@[simp] theorem gocs_focusMode (s : SrsState) :
    (getOrCreateSession s).2.focusMode = s.focusMode := by
  rw [getOrCreateSession_snd]

@[simp] theorem gocs_hasTokenizer (s : SrsState) :
    (getOrCreateSession s).2.hasTokenizer = s.hasTokenizer := by
  rw [getOrCreateSession_snd]

@[simp] theorem gocs_hasAnkiApi (s : SrsState) :
    (getOrCreateSession s).2.hasAnkiApi = s.hasAnkiApi := by
  rw [getOrCreateSession_snd]

@[simp] theorem gocs_videoSrc (s : SrsState) :
    (getOrCreateSession s).2.videoSrc = s.videoSrc := by
  rw [getOrCreateSession_snd]

@[simp] theorem gocs_lineStatusCache (s : SrsState) :
    (getOrCreateSession s).2.lineStatusCache = s.lineStatusCache := by
  rw [getOrCreateSession_snd]

@[simp] theorem gocs_testLineIndices (s : SrsState) :
    (getOrCreateSession s).2.testLineIndices = s.testLineIndices := by
  rw [getOrCreateSession_snd]

@[simp] theorem gocs_currentSubtitle (s : SrsState) :
    (getOrCreateSession s).2.currentSubtitle = s.currentSubtitle := by
  rw [getOrCreateSession_snd]

@[simp] theorem gocs_currentTestTimeframe (s : SrsState) :
    (getOrCreateSession s).2.currentTestTimeframe = s.currentTestTimeframe := by
  rw [getOrCreateSession_snd]

@[simp] theorem gocs_currentDisplayState (s : SrsState) :
    (getOrCreateSession s).2.currentDisplayState = s.currentDisplayState := by
  rw [getOrCreateSession_snd]

@[simp] theorem gocs_testCompleted (s : SrsState) :
    (getOrCreateSession s).2.testCompleted = s.testCompleted := by
  rw [getOrCreateSession_snd]

@[simp] theorem gocs_answerSubmitted (s : SrsState) :
    (getOrCreateSession s).2.answerSubmitted = s.answerSubmitted := by
  rw [getOrCreateSession_snd]

@[simp] theorem gocs_showing (s : SrsState) :
    (getOrCreateSession s).2.showing = s.showing := by
  rw [getOrCreateSession_snd]

@[simp] theorem gocs_forceHideSubtitles (s : SrsState) :
    (getOrCreateSession s).2.forceHideSubtitles = s.forceHideSubtitles := by
  rw [getOrCreateSession_snd]

@[simp] theorem gocs_mobileForceHide (s : SrsState) :
    (getOrCreateSession s).2.mobileForceHide = s.mobileForceHide := by
  rw [getOrCreateSession_snd]

@[simp] theorem gocs_studyRecords (s : SrsState) :
    (getOrCreateSession s).2.studyRecords = s.studyRecords := by
  rw [getOrCreateSession_snd]

@[simp] theorem gocs_recognitionBatches (s : SrsState) :
    (getOrCreateSession s).2.recognitionBatches = s.recognitionBatches := by
  rw [getOrCreateSession_snd]

@[simp] theorem gocs_notifications (s : SrsState) :
    (getOrCreateSession s).2.notifications = s.notifications := by
  rw [getOrCreateSession_snd]

/-- C4: with a matching session whose lastCardTime is nonzero, elapsing
fewer than rateLimitSeconds makes shouldTestLine false, for every strategy,
line count, frequency and scoring environment. -/
theorem c4_rate_limit_blocks (env : Env) (now : Int) (s : SrsState)
    (text : String) (idx : Nat) (sess : VideoSession)
    (h1 : s.currentSession = some sess) (h2 : sess.videoSrc = s.videoSrc)
    (h3 : sess.lastCardTime ≠ 0)
    (h4 : Rat.divInt (now - sess.lastCardTime) 1000 < s.rateLimitSeconds) :
    (shouldTestLine env now s text idx).1 = false := by
  unfold shouldTestLine isRateLimitSatisfied
  rw [getOrCreateSession_of_match s sess h1 h2]
  dsimp only
  rw [getOrCreateSession_of_match s sess h1 h2]
  dsimp only
  have hbeq : (sess.lastCardTime == 0) = false := by simp [h3]
  have hlt : (decide (Rat.divInt (now - sess.lastCardTime) 1000 ≥ s.rateLimitSeconds)) = false := by
    simp [not_le.mpr h4]
  split
  · rfl
  · simp [hbeq, hlt]

/-- A concrete state whose session is 500 milliseconds past its last card. -/
def c4DemoState : SrsState :=
  { initialState 10 10 with currentSession := some ⟨"v", [], 1, 500⟩ }

theorem c4_rate_limit_blocks_witness :
    (shouldTestLine demoEnv 1000 c4DemoState "a" 3).1 = false :=
  c4_rate_limit_blocks demoEnv 1000 c4DemoState "a" 3 ⟨"v", [], 1, 500⟩
    rfl rfl (by decide) (by decide)

/-- C5 amended: under the prioritize_unknown strategy, a missing tokenizer,
missing AnkiApi, or empty deck list forces shouldTestLine to false,
whatever the scoring environment computes and whatever the cadence counters
hold; the readiness check inspects only the length of the deck list, so the
enabled flags of the configured decks play no part in it. -/
theorem c5_priority_requires_ready (env : Env) (now : Int) (s : SrsState)
    (text : String) (idx : Nat)
    (h1 : s.lineSelectionStrategy = "prioritize_unknown")
    (h2 : s.hasTokenizer = false ∨ s.hasAnkiApi = false ∨ s.studyDecks = []) :
    (shouldTestLine env now s text idx).1 = false := by
  have hready : isPrioritySelectionReady ((getOrCreateSession s).2) = false := by
    unfold isPrioritySelectionReady
    rcases h2 with h | h | h <;> simp [h]
  have hstrat : ((getOrCreateSession s).2.lineSelectionStrategy = "random") = False := by
    rw [gocs_lineSelectionStrategy, h1]
    simp
  unfold shouldTestLine isRateLimitSatisfied
  simp only [getOrCreateSession_idem]
  split
  · rfl
  · split_ifs with hrate hr hp
    · rfl
    · exact absurd hr (by rw [hstrat]; exact not_false)
    · rfl
    · exact absurd hp (by simp [hready])

/-- A concrete state configured for prioritize_unknown with no AnkiApi. -/
def c5DemoState : SrsState :=
  { initialState 10 0 with lineSelectionStrategy := "prioritize_unknown" }

theorem c5_priority_requires_ready_witness :
    (shouldTestLine demoEnv 1000 c5DemoState "a" 3).1 = false :=
  c5_priority_requires_ready demoEnv 1000 c5DemoState "a" 3 rfl
    (Or.inr (Or.inl rfl))

/-- A scoring environment whose trigger decision always fires. -/
def triggerEnv : Env := { demoEnv with shouldTriggerStudyCard := fun _ _ => true }

/-- A prioritize_unknown state with tokenizer and AnkiApi present and a
nonempty deck list in which every deck is disabled. -/
def c5DisabledDeckState : SrsState :=
  { initialState 10 0 with
    lineSelectionStrategy := "prioritize_unknown",
    hasAnkiApi := true,
    studyDecks := [⟨"d", false⟩] }

/-- C5 counterexample: with a nonempty deck list in which no deck is
enabled (so at least one enabled deck configuration is missing), the
readiness check of shouldTestLine still passes, because it inspects only
the length of the deck list and never the enabled flags; with a triggering
scoring environment the line is selected for testing. -/
theorem c5_priority_counterexample :
    (∀ d ∈ c5DisabledDeckState.studyDecks, d.enabled = false) ∧
    c5DisabledDeckState.lineSelectionStrategy = "prioritize_unknown" ∧
    (shouldTestLine triggerEnv 1000 c5DisabledDeckState "a" 3).1 = true := by
  decide

/-- C10: once answerSubmitted is set, handleSubmit and handleInputChange
leave the whole state (display, cache, persisted records) unchanged, and
continuing or dismissing the test resets the flag. -/
theorem c10_submitted_lock (env : Env) (now : Int) (s : SrsState)
    (answers : List String) (i : Nat) (v : String) (b : Bool)
    (h : s.answerSubmitted = true) :
    handleSubmit env now s answers = s ∧
    handleInputChange s i v = s ∧
    (∀ sub, s.currentSubtitle = some sub → (handleContinue s b).answerSubmitted = false) ∧
    (dismissTestAndRestoreSubtitles s).answerSubmitted = false := by
  refine ⟨?_, ?_, ?_, ?_⟩
  · unfold handleSubmit
    split
    · simp [h]
    · rfl
  · unfold handleInputChange
    split
    · rfl
    · simp [h]
  · intro sub hsub
    unfold handleContinue
    rw [hsub]
  · rfl

/-- A concrete active-test state with the answer already submitted. -/
def c10DemoState : SrsState :=
  { initialState 10 10 with
    answerSubmitted := true,
    currentSubtitle := some ⟨"a", 7, 0, 1000⟩,
    currentDisplayState := some ⟨[demoToken], [0], ["x"], true, false, some [false]⟩ }

theorem c10_submitted_lock_witness :
    handleSubmit demoEnv 0 c10DemoState ["y"] = c10DemoState ∧
    handleInputChange c10DemoState 0 "y" = c10DemoState ∧
    (handleContinue c10DemoState true).answerSubmitted = false ∧
    (dismissTestAndRestoreSubtitles c10DemoState).answerSubmitted = false := by
  have h := c10_submitted_lock demoEnv 0 c10DemoState ["y"] 0 "y" true rfl
  exact ⟨h.1, h.2.1, h.2.2.1 ⟨"a", 7, 0, 1000⟩ rfl, h.2.2.2⟩

/-- C9: the overlay submit handler never invokes onSubmit when some blank
is empty or whitespace-only, never moves the display to the result view by
itself, and any invocation carries only answers that are nonempty after
trimming. -/
theorem c9_submit_requires_nonempty (st : OverlayState) (hasContainer : Bool)
    (domAnswers : List String) (cs : StudyTestDisplayState)
    (h : st.currentState = some cs) :
    ((∃ a ∈ domAnswers, jsTrim a = "") →
       (overlayHandleSubmit st hasContainer domAnswers).2 = none) ∧
    ((overlayHandleSubmit st hasContainer domAnswers).1.currentState.map
       (fun d => d.showingResult) = some cs.showingResult) ∧
    (∀ ans, (overlayHandleSubmit st hasContainer domAnswers).2 = some ans →
       ∀ a ∈ ans, jsTrim a ≠ "") := by
  refine ⟨?_, ?_, ?_⟩
  · rintro ⟨a, ha, he⟩
    unfold overlayHandleSubmit
    rw [h]
    cases hasContainer with
    | false => rfl
    | true =>
      dsimp only
      rw [if_neg (by simp)]
      split
      · next hall =>
        rw [List.all_eq_true] at hall
        have := hall a ha
        simp [he] at this
      · rfl
  · unfold overlayHandleSubmit
    rw [h]
    cases hasContainer with
    | false =>
      dsimp only
      rw [if_pos (by simp)]
      simp [h]
    | true =>
      dsimp only
      rw [if_neg (by simp)]
      split <;> simp
  · intro ans hans
    unfold overlayHandleSubmit at hans
    rw [h] at hans
    cases hasContainer with
    | false =>
      dsimp only at hans
      rw [if_pos (by simp)] at hans
      simp at hans
    | true =>
      dsimp only at hans
      rw [if_neg (by simp)] at hans
      split at hans
      · next hall =>
        have hd : domAnswers = ans := by simpa using hans
        subst hd
        intro a ha
        rw [List.all_eq_true] at hall
        have := hall a ha
        simpa using this
      · simp at hans

/-- A concrete overlay state with two blanks, one answered with blanks
only. -/
def c9DemoOverlay : OverlayState :=
  ⟨true, some ⟨[demoToken, demoToken], [0, 1], ["", "x"], false, false, none⟩⟩

theorem c9_submit_requires_nonempty_witness :
    (overlayHandleSubmit c9DemoOverlay true [" ", "x"]).2 = none :=
  (c9_submit_requires_nonempty c9DemoOverlay true [" ", "x"]
      ⟨[demoToken, demoToken], [0, 1], ["", "x"], false, false, none⟩ rfl).1
    ⟨" ", by decide⟩

/-! Session bookkeeping: studiedLineIndices never acquires duplicates. -/

/-- Every session held by the state has duplicate-free studied indices. -/
def sessionNodup (s : SrsState) : Prop :=
  ∀ sess, s.currentSession = some sess → sess.studiedLineIndices.Nodup

theorem sessionNodup_of_eq {s t : SrsState}
    (h : t.currentSession = s.currentSession) (hs : sessionNodup s) :
    sessionNodup t := by
  intro sess hsess
  exact hs sess (by rw [← h]; exact hsess)

theorem gocs_fst_nodup {s : SrsState} (hs : sessionNodup s) :
    (getOrCreateSession s).1.studiedLineIndices.Nodup := by
  unfold getOrCreateSession
  cases h : s.currentSession with
  | none => simp
  | some sess =>
    by_cases hv : sess.videoSrc = s.videoSrc
    · simpa [hv] using hs sess h
    · simp [hv]

theorem gocs_snd_nodup {s : SrsState} (hs : sessionNodup s) :
    sessionNodup (getOrCreateSession s).2 := by
  intro sess hsess
  rw [getOrCreateSession_currentSession] at hsess
  injection hsess with hh
  exact hh ▸ gocs_fst_nodup hs

theorem updateSessionOnCardShown_nodup {s : SrsState} (now : Int) (idx : Nat)
    (hs : sessionNodup s) : sessionNodup (updateSessionOnCardShown now s idx) := by
  intro sess hsess
  unfold updateSessionOnCardShown at hsess
  dsimp only at hsess
  injection hsess with hh
  rw [← hh]
  exact addToSet_nodup (gocs_fst_nodup hs)

theorem attemptShow_ok_currentSession (env : Env) (s : SrsState)
    (sub : IndexedSubtitle) (ex : Option LineTestInfo) (b : Bool) (s2 : SrsState)
    (h : attemptShow env s sub ex = .ok (b, s2)) :
    s2.currentSession = s.currentSession := by
  unfold attemptShow at h
  cases hC : chooseTokens env s sub.text ex with
  | error e => rw [hC] at h; simp at h
  | ok chosen =>
    rw [hC] at h
    cases chosen with
    | none =>
      simp only [Except.ok.injEq, Prod.mk.injEq] at h
      obtain ⟨-, hs2⟩ := h
      subst hs2
      rfl
    | some p =>
      obtain ⟨tokens, blankedIndices⟩ := p
      simp only [Except.ok.injEq, Prod.mk.injEq] at h
      obtain ⟨-, hs2⟩ := h
      subst hs2
      rfl

theorem retryTokenizerInit_currentSession (env : Env) (s : SrsState) :
    (retryTokenizerInit env s).currentSession = s.currentSession := by
  unfold retryTokenizerInit
  split <;> rfl

theorem showTest_currentSession (env : Env) (s : SrsState) (sub : IndexedSubtitle)
    (ex : Option LineTestInfo) :
    (showTest env s sub ex).2.currentSession = s.currentSession := by
  unfold showTest
  dsimp only
  split
  · exact retryTokenizerInit_currentSession env s
  · cases hA : attemptShow env (retryTokenizerInit env s) sub ex with
    | error e =>
      exact retryTokenizerInit_currentSession env s
    | ok r =>
      dsimp only
      rw [attemptShow_ok_currentSession env _ sub ex r.1 r.2 (by rw [hA])]
      exact retryTokenizerInit_currentSession env s

theorem runTestFlow_sessionNodup (env : Env) (now : Int) (s : SrsState)
    (isub : IndexedSubtitle) (ex : Option LineTestInfo) (hs : sessionNodup s) :
    sessionNodup (runTestFlow env now s isub ex).2 := by
  have hst : sessionNodup (shouldTestLine env now s isub.text isub.index).2 := by
    rw [shouldTestLine_snd]
    exact gocs_snd_nodup hs
  unfold runTestFlow
  dsimp only
  split
  · have hshow : sessionNodup (showTest env
        { (shouldTestLine env now s isub.text isub.index).2 with
          testLineIndices := addToSet (shouldTestLine env now s isub.text isub.index).2.testLineIndices isub.index,
          currentSubtitle := some isub } isub ex).2 := by
      apply sessionNodup_of_eq (showTest_currentSession env _ isub ex)
      exact sessionNodup_of_eq rfl hst
    split
    · exact updateSessionOnCardShown_nodup now isub.index hshow
    · exact hshow
  · exact hst

/-- Every onSubtitleShown call preserves duplicate-freeness of the studied
line indices. -/
theorem onSubtitleShown_sessionNodup (env : Env) (now : Int) (s : SrsState)
    (sub : SubtitleModel) (hs : sessionNodup s) :
    sessionNodup (onSubtitleShown env now s sub).2 := by
  unfold onSubtitleShown
  split
  · exact hs
  · split
    · exact hs
    · split
      · exact hs
      · dsimp only
        have hs1 : sessionNodup { s with lineCount := s.lineCount + 1 } :=
          sessionNodup_of_eq rfl hs
        split
        · split
          · exact hs1
          · exact runTestFlow_sessionNodup env now _ _ _ hs1
        · exact runTestFlow_sessionNodup env now _ _ _ hs1

/-- C1 counterexample: on a fresh session with cadence frequency 1, line 7
is tested (and recorded in studiedLineIndices); after the test is dismissed
before submission, re-encountering line 7 displays a test for it again, so
a line index can have a test displayed more than once per session with the
video source unchanged. -/
theorem c1_studied_once_counterexample :
    (onSubtitleShown demoEnv 1000 (initialState 1 10) (subAt 7)).1 = true ∧
    studiedContains (onSubtitleShown demoEnv 1000 (initialState 1 10) (subAt 7)).2 7 = true ∧
    (onSubtitleShown demoEnv 2000
      (dismissTestAndRestoreSubtitles
        (onSubtitleShown demoEnv 1000 (initialState 1 10) (subAt 7)).2)
      (subAt 7)).1 = true := by
  decide

/-- C1 amended: studiedLineIndices never acquires a duplicate entry (adding
an already-studied index is a no-op on the set), and a line whose cached
status is pass or fail never has a test displayed again; a line dismissed
before submission (status reverted to incomplete) is however re-tested on
re-encounter. -/
theorem c1_studied_once_amended (env : Env) (now : Int) (s : SrsState)
    (sub : SubtitleModel) (hs : sessionNodup s) :
    sessionNodup (onSubtitleShown env now s sub).2 ∧
    (∀ idx info, sub.index = some idx → getLineStatus s idx = some info →
       info.status ≠ LineStatus.incomplete →
       (onSubtitleShown env now s sub).1 = false) := by
  constructor
  · exact onSubtitleShown_sessionNodup env now s sub hs
  · intro idx info hidx hinfo hstat
    unfold onSubtitleShown
    split
    · rfl
    · split
      · rfl
      · rw [hidx]
        dsimp only
        have hinfo1 : getLineStatus { s with lineCount := s.lineCount + 1 } idx
            = some info := hinfo
        rw [hinfo1]
        dsimp only
        rw [if_pos hstat]

theorem c1_studied_once_witness :
    sessionNodup (onSubtitleShown demoEnv 1000 (initialState 1 10) (subAt 7)).2 ∧
    (onSubtitleShown demoEnv 1000
      { initialState 1 10 with
        lineStatusCache := [("v", [(7, ⟨7, LineStatus.pass, none, none⟩)])] }
      (subAt 7)).1 = false := by
  constructor
  · exact (c1_studied_once_amended demoEnv 1000 (initialState 1 10) (subAt 7)
      (fun sess hsess => by simp [initialState] at hsess)).1
  · exact (c1_studied_once_amended demoEnv 1000
      { initialState 1 10 with
        lineStatusCache := [("v", [(7, ⟨7, LineStatus.pass, none, none⟩)])] }
      (subAt 7)
      (fun sess hsess => by simp [initialState] at hsess)).2
      7 ⟨7, LineStatus.pass, none, none⟩ rfl (by decide) (by decide)

/-- C2 counterexample: with frequency 10 and rate limit 10 seconds, twenty
lines shown in immediate succession trigger a test only on line 10; line 20
has running count 20 (a multiple of 10), no cached pass or fail entry, an
enabled engine and no test showing, yet no test is triggered, because line
10 set lastCardTime and the rate limit refuses line 20. -/
theorem c2_cadence_counterexample :
    (runWithContinue demoEnv (initialState 10 10) c2CallsFast).1
      = (List.range 20).map (fun i => decide (i = 9)) ∧
    (runWithContinue demoEnv (initialState 10 10) (c2CallsFast.take 19)).2.lineCount = 19 ∧
    getLineStatus (runWithContinue demoEnv (initialState 10 10) (c2CallsFast.take 19)).2 20 = none ∧
    (runWithContinue demoEnv (initialState 10 10) (c2CallsFast.take 19)).2.enabled = true ∧
    (runWithContinue demoEnv (initialState 10 10) (c2CallsFast.take 19)).2.showing = false := by
  decide

/-- C2 amended: under the cadence strategy, shouldTestLine is true exactly
when the line is not already studied this session, the rate limit is
satisfied, and the running line count is a multiple of the frequency; in
the 25-line scenario with calls spaced beyond the rate limit and each test
completed, tests trigger on lines 10 and 20 only. -/
theorem c2_cadence_amended :
    (∀ env now s text idx, s.lineSelectionStrategy = "random" →
       (shouldTestLine env now s text idx).1 =
         (!(decide (idx ∈ (getOrCreateSession s).1.studiedLineIndices)) &&
          (isRateLimitSatisfied now s).1 &&
          decide (s.lineCount % s.frequency = 0))) ∧
    (runWithContinue demoEnv (initialState 10 10) c2CallsSpaced).1
      = (List.range 25).map (fun i => decide (i = 9 ∨ i = 19)) := by
  constructor
  · intro env now s text idx h
    have hstrat : (getOrCreateSession s).2.lineSelectionStrategy = "random" := by
      rw [gocs_lineSelectionStrategy, h]
    unfold shouldTestLine isRateLimitSatisfied
    simp only [getOrCreateSession_idem]
    by_cases hm : idx ∈ (getOrCreateSession s).1.studiedLineIndices
    · rw [if_pos hm]
      simp [hm]
    · rw [if_neg hm]
      cases hrb : ((getOrCreateSession s).1.lastCardTime == 0
          || decide (Rat.divInt (now - (getOrCreateSession s).1.lastCardTime) 1000
               ≥ (getOrCreateSession s).2.rateLimitSeconds)) with
      | false => simp [hm, hrb]
      | true => simp [hm, hrb, hstrat, h]
  · decide

theorem c2_cadence_witness :
    (shouldTestLine demoEnv 0 (initialState 3 0) "a" 5).1 =
      (!(decide (5 ∈ (getOrCreateSession (initialState 3 0)).1.studiedLineIndices)) &&
       (isRateLimitSatisfied 0 (initialState 3 0)).1 &&
       decide ((initialState 3 0).lineCount % (initialState 3 0).frequency = 0)) :=
  c2_cadence_amended.1 demoEnv 0 (initialState 3 0) "a" 5 rfl

/-! Cache behaviour: writing a line status and reading it back. -/

theorem getLineStatus_cacheLineStatus_self (s : SrsState) (idx : Nat)
    (info : LineTestInfo) :
    getLineStatus (cacheLineStatus s idx info) idx = some info := by
  unfold getLineStatus cacheLineStatus
  dsimp only
  rw [assocGet_assocSet_self]
  exact assocGet_assocSet_self idx info _

@[simp] theorem updateSessionOnCardShown_currentDisplayState (now : Int)
    (s : SrsState) (idx : Nat) :
    (updateSessionOnCardShown now s idx).currentDisplayState
      = s.currentDisplayState := by
  unfold updateSessionOnCardShown
  dsimp only
  rw [gocs_currentDisplayState]

@[simp] theorem cacheLineStatus_currentSubtitle (s : SrsState) (idx : Nat)
    (info : LineTestInfo) :
    (cacheLineStatus s idx info).currentSubtitle = s.currentSubtitle := rfl

theorem retryTokenizerInit_of_hasTokenizer {env : Env} {s : SrsState}
    (h : s.hasTokenizer = true) : retryTokenizerInit env s = s := by
  unfold retryTokenizerInit
  rw [h]
  simp

/-- When the tokenizer is present and the cached entry carries tokens and
blanked indices, showTest reuses them verbatim and shows the test. -/
theorem showTest_reuse (env : Env) (s : SrsState) (sub : IndexedSubtitle)
    (info : LineTestInfo) (ts : List TokenPart) (bs : List Nat)
    (htok : s.hasTokenizer = true)
    (h4 : info.tokens = some ts) (h5 : info.blankedIndices = some bs) :
    showTest env s sub (some info) =
      (true, { cacheLineStatus s sub.index
          ⟨sub.index, LineStatus.incomplete, some ts, some bs⟩ with
        currentTestTimeframe := some (sub.startTime, sub.endTime),
        testCompleted := false,
        currentDisplayState := some ⟨ts, bs, bs.map (fun _ => ""), false, false, none⟩,
        forceHideSubtitles := true,
        mobileForceHide := true,
        showing := true }) := by
  unfold showTest
  dsimp only
  rw [retryTokenizerInit_of_hasTokenizer htok]
  rw [htok]
  rw [if_neg (by simp)]
  unfold attemptShow chooseTokens
  dsimp only
  rw [h4, h5]

/-- Re-encountering a line whose cached status is incomplete with cached
tokens and blanked indices always re-displays the test with exactly those
tokens and blanks. -/
theorem onSubtitleShown_incomplete_reuse (env : Env) (now : Int) (r : SrsState)
    (sub2 : SubtitleModel) (idx : Nat) (info : LineTestInfo)
    (ts : List TokenPart) (bs : List Nat)
    (hshow : r.showing = false) (hen : r.enabled = true)
    (htext : jsTrim sub2.text ≠ "") (hidx : sub2.index = some idx)
    (htok : r.hasTokenizer = true)
    (hcache : getLineStatus r idx = some info)
    (hstat : info.status = LineStatus.incomplete)
    (h4 : info.tokens = some ts) (h5 : info.blankedIndices = some bs) :
    (onSubtitleShown env now r sub2).1 = true ∧
    (onSubtitleShown env now r sub2).2.currentDisplayState
      = some ⟨ts, bs, bs.map (fun _ => ""), false, false, none⟩ := by
  unfold onSubtitleShown
  rw [if_neg (by simp [hshow])]
  rw [if_neg (by simp [hen, htext])]
  rw [hidx]
  dsimp only
  have hc1 : getLineStatus { r with lineCount := r.lineCount + 1 } idx
      = some info := hcache
  rw [hc1]
  dsimp only
  rw [if_neg (by simp [hstat])]
  unfold runTestFlow
  dsimp only
  rw [hstat]
  rw [if_pos (by simp)]
  have htok2 : ({ (shouldTestLine env now { r with lineCount := r.lineCount + 1 }
      sub2.text idx).2 with
      testLineIndices := addToSet (shouldTestLine env now
        { r with lineCount := r.lineCount + 1 } sub2.text idx).2.testLineIndices idx,
      currentSubtitle := some ⟨sub2.text, idx, sub2.startTime, sub2.endTime⟩ }
      : SrsState).hasTokenizer = true := by
    show (shouldTestLine env now { r with lineCount := r.lineCount + 1 }
      sub2.text idx).2.hasTokenizer = true
    rw [shouldTestLine_snd, gocs_hasTokenizer]
    exact htok
  rw [showTest_reuse env _ _ info ts bs htok2 h4 h5]
  constructor
  · rfl
  · simp

/-- C6: dismissing an uncompleted test reverts the cached status to
incomplete keeping tokens and blankedIndices unchanged, and any later
onSubtitleShown on that line (engine enabled, nonempty text, tokenizer
present, no test showing) re-displays the test with exactly the cached
tokens and blanked indices. -/
theorem c6_dismiss_and_reuse (s : SrsState) (sub : IndexedSubtitle)
    (info : LineTestInfo) (ts : List TokenPart) (bs : List Nat)
    (h1 : s.currentSubtitle = some sub) (h2 : s.testCompleted = false)
    (h3 : getLineStatus s sub.index = some info)
    (h4 : info.tokens = some ts) (h5 : info.blankedIndices = some bs) :
    getLineStatus (dismissTestAndRestoreSubtitles s) sub.index
      = some { info with status := LineStatus.incomplete } ∧
    (∀ env now r sub2, r.showing = false → r.enabled = true →
       jsTrim sub2.text ≠ "" → sub2.index = some sub.index →
       r.hasTokenizer = true →
       getLineStatus r sub.index = some { info with status := LineStatus.incomplete } →
       (onSubtitleShown env now r sub2).1 = true ∧
       (onSubtitleShown env now r sub2).2.currentDisplayState
         = some ⟨ts, bs, bs.map (fun _ => ""), false, false, none⟩) := by
  constructor
  · unfold dismissTestAndRestoreSubtitles
    rw [h1, h2]
    dsimp only
    rw [h3]
    dsimp only
    rw [if_pos (show (!false) = true by simp)]
    rw [cacheLineStatus_currentSubtitle, h1]
    dsimp only
    exact getLineStatus_cacheLineStatus_self s sub.index
      { info with status := LineStatus.incomplete }
  · intro env now r sub2 hshow hen htext hidx htok hcache
    exact onSubtitleShown_incomplete_reuse env now r sub2 sub.index
      { info with status := LineStatus.incomplete } ts bs
      hshow hen htext hidx htok hcache rfl h4 h5

/-- A cached incomplete test for line 7 with an active current subtitle. -/
def c6DemoInfo : LineTestInfo := ⟨7, LineStatus.incomplete, some [demoToken], some [0]⟩

/-- A state in the middle of a test on line 7 that has not been completed. -/
def c6DemoState : SrsState :=
  { initialState 1 10 with
    lineStatusCache := [("v", [(7, c6DemoInfo)])],
    currentSubtitle := some ⟨"a", 7, 0, 1000⟩ }

theorem c6_dismiss_and_reuse_witness :
    getLineStatus (dismissTestAndRestoreSubtitles c6DemoState) 7
      = some { c6DemoInfo with status := LineStatus.incomplete } ∧
    (onSubtitleShown demoEnv 0 (dismissTestAndRestoreSubtitles c6DemoState) (subAt 7)).1 = true := by
  have h := c6_dismiss_and_reuse c6DemoState ⟨"a", 7, 0, 1000⟩ c6DemoInfo [demoToken] [0]
      rfl rfl (by decide) rfl rfl
  exact ⟨h.1, (h.2 demoEnv 0 (dismissTestAndRestoreSubtitles c6DemoState) (subAt 7)
      (by decide) (by decide) (by decide) rfl (by decide) h.1).1⟩

theorem retryTokenizerInit_of_no_tokenizer {env : Env} {s : SrsState}
    (h : s.hasTokenizer = false) :
    retryTokenizerInit env s = applyUpdateSettings env s := by
  unfold retryTokenizerInit
  rw [h]
  simp

/-- An environment whose tokenizer always throws. -/
def throwEnv : Env := { demoEnv with tokenize := fun _ => .error () }

/-- A state with line 7 marked as a pending test line. -/
def c8MarkState : SrsState := { initialState 1 10 with testLineIndices := [7] }

/-- C8 counterexample: when tokenization throws inside showTest, the
attempt is aborted with the pending marker cleared and no cache entry
created, but no user-visible notification is surfaced, contrary to the
claim that a notification accompanies a tokenization throw. -/
theorem c8_failure_counterexample :
    throwEnv.tokenize "a" = .error () ∧
    (showTest throwEnv c8MarkState ⟨"a", 7, 0, 1000⟩ none).1 = false ∧
    (showTest throwEnv c8MarkState ⟨"a", 7, 0, 1000⟩ none).2.notifications = [] ∧
    (showTest throwEnv c8MarkState ⟨"a", 7, 0, 1000⟩ none).2.testLineIndices = [] ∧
    (showTest throwEnv c8MarkState ⟨"a", 7, 0, 1000⟩ none).2.lineStatusCache = [] := by
  decide

/-- C8 amended: a tokenizer missing even after the settings retry aborts
the attempt with a user-visible notification, the pending marker cleared
and the cache untouched; a tokenization throw aborts silently with the
marker cleared and no cache entry; zero tokens, zero testable indices or
zero blanked indices silently skip the line the same way. -/
theorem c8_failure_amended (env : Env) (s : SrsState) (sub : IndexedSubtitle)
    (ex : Option LineTestInfo) :
    (s.hasTokenizer = false → env.createTokenizerSucceeds = false →
       (showTest env s sub ex).1 = false ∧
       (showTest env s sub ex).2.notifications
         = s.notifications ++ ["error.studyModeNoTokenizer"] ∧
       (showTest env s sub ex).2.lineStatusCache = s.lineStatusCache ∧
       (showTest env s sub ex).2.testLineIndices
         = removeSet s.testLineIndices sub.index) ∧
    (s.hasTokenizer = true → env.tokenize sub.text = .error () →
       showTest env s sub none
         = (false, { s with testLineIndices := removeSet s.testLineIndices sub.index })) ∧
    (∀ gs, s.hasTokenizer = true → env.tokenize sub.text = .ok gs →
       (gs.flatten = [] ∨ env.getTestableIndices gs.flatten = [] ∨
        env.selectTokensToBlank gs.flatten s.tokenSelectionStrategy
          s.includeConjugations 3 = []) →
       showTest env s sub none
         = (false, { s with testLineIndices := removeSet s.testLineIndices sub.index })) := by
  refine ⟨?_, ?_, ?_⟩
  · intro h1 h2
    have h0 : (applyUpdateSettings env s).hasTokenizer = false := by
      simp [applyUpdateSettings, h1, h2]
    unfold showTest
    dsimp only
    rw [retryTokenizerInit_of_no_tokenizer h1]
    rw [h0]
    rw [if_pos (by simp)]
    exact ⟨rfl, rfl, rfl, rfl⟩
  · intro h1 h2
    unfold showTest
    dsimp only
    rw [retryTokenizerInit_of_hasTokenizer h1]
    rw [h1]
    rw [if_neg (by simp)]
    unfold attemptShow chooseTokens freshSelection
    rw [h2]
  · intro gs h1 h2 hor
    unfold showTest
    dsimp only
    rw [retryTokenizerInit_of_hasTokenizer h1]
    rw [h1]
    rw [if_neg (by simp)]
    unfold attemptShow chooseTokens freshSelection
    rw [h2]
    dsimp only
    by_cases hf : gs.flatten = []
    · rw [if_pos hf]
      dsimp only
      rw [h1]
    · rw [if_neg hf]
      by_cases ht : env.getTestableIndices gs.flatten = []
      · rw [if_pos ht]
        dsimp only
        rw [h1]
      · rw [if_neg ht]
        have hb : env.selectTokensToBlank gs.flatten s.tokenSelectionStrategy
            s.includeConjugations 3 = [] := by
          rcases hor with h | h | h
          · exact absurd h hf
          · exact absurd h ht
          · exact h
        rw [if_pos hb]
        dsimp only
        rw [h1]

/-- A state without a tokenizer, in an environment where retrying the
tokenizer initialization fails as well. -/
def noTokState : SrsState := { initialState 1 10 with hasTokenizer := false }

/-- An environment whose tokenizer yields no token groups at all. -/
def emptyTokEnv : Env := { demoEnv with tokenize := fun _ => .ok [] }

theorem c8_failure_amended_witness :
    (showTest demoEnv noTokState ⟨"a", 7, 0, 1000⟩ none).2.notifications
      = noTokState.notifications ++ ["error.studyModeNoTokenizer"] ∧
    showTest throwEnv c8MarkState ⟨"a", 7, 0, 1000⟩ none
      = (false, { c8MarkState with
          testLineIndices := removeSet c8MarkState.testLineIndices 7 }) ∧
    showTest emptyTokEnv c8MarkState ⟨"a", 7, 0, 1000⟩ none
      = (false, { c8MarkState with
          testLineIndices := removeSet c8MarkState.testLineIndices 7 }) := by
  refine ⟨?_, ?_, ?_⟩
  · exact ((c8_failure_amended demoEnv noTokState ⟨"a", 7, 0, 1000⟩ none).1 rfl rfl).2.1
  · exact (c8_failure_amended throwEnv c8MarkState ⟨"a", 7, 0, 1000⟩ none).2.1 rfl rfl
  · exact (c8_failure_amended emptyTokEnv c8MarkState ⟨"a", 7, 0, 1000⟩ none).2.2
      [] rfl rfl (Or.inl rfl)

/-! Answer validation: the three acceptance tiers of the specification. -/

/-- Token used only to express list indexing in statements; it is never
reached when the blanked indices are in range. -/
def defaultTokenPart : TokenPart := ⟨"", none, none, none, none⟩

/-- Modelled from the spec wording of tier 1: the trimmed answer equals the
trimmed surface text of the blanked token. -/
def specTier1 (token : TokenPart) (rawAnswer : String) : Bool :=
  decide (jsTrim rawAnswer = jsTrim token.text)

/-- Modelled from the spec wording of tier 2: the trimmed answer equals the
reading of the token (surface text when no reading is present) folded from
katakana to hiragana. -/
def specTier2 (token : TokenPart) (rawAnswer : String) : Bool :=
  decide (jsTrim rawAnswer = katakanaToHiragana (jsOr token.reading token.text))

/-- Modelled from the spec wording of tier 3: the answer is re-tokenized
and the concatenation of its folded readings equals the expected folded
reading. -/
def specTier3 (env : Env) (token : TokenPart) (rawAnswer : String) : Bool :=
  match env.tokenize (jsTrim rawAnswer) with
  | .ok gs =>
    decide (String.join ((gs.flatten).map
        (fun t => katakanaToHiragana (jsOr t.reading t.text)))
      = katakanaToHiragana (jsOr token.reading token.text))
  | .error _ => false

/-- A blank is accepted exactly when one of the three tiers accepts it. -/
def specVerdict (env : Env) (token : TokenPart) (rawAnswer : String) : Bool :=
  specTier1 token rawAnswer || specTier2 token rawAnswer || specTier3 env token rawAnswer

/-- The positional pairing of the blanked indices with their answers, as
walked by the submit loop. -/
def pairsOf : List Nat → List String → List (Nat × String)
  | [], _ => []
  | bi :: rest, answers => (bi, answers.headD "") :: pairsOf rest answers.tail

/-- The overall result of a submission: the conjunction of the per-blank
verdicts, or none when the loop throws. -/
def allCorrectOf (env : Env) (tokens : List TokenPart) (blanked : List Nat)
    (answers : List String) : Option Bool :=
  match checkAnswers env true tokens blanked answers with
  | .ok rs => some (rs.all (fun r => r))
  | .error _ => none

theorem checkOne_eq_specVerdict (env : Env) (token : TokenPart) (raw : String) :
    checkOne env true token raw = specVerdict env token raw := by
  unfold checkOne specVerdict specTier1 specTier2 specTier3
  dsimp only
  by_cases h1 : jsTrim raw = jsTrim token.text
  · simp [h1]
  · rw [if_neg h1]
    by_cases h2 : jsTrim raw = katakanaToHiragana (jsOr token.reading token.text)
    · simp [h1, h2]
    · rw [if_neg h2]
      cases henv : env.tokenize (jsTrim raw) with
      | ok gs => simp [henv, h1, h2]
      | error e => simp [henv, h1, h2]

theorem checkAnswers_eq_map (env : Env) (tokens : List TokenPart)
    (blanked : List Nat) (answers : List String)
    (hwf : ∀ bi ∈ blanked, bi < tokens.length) :
    checkAnswers env true tokens blanked answers
      = .ok ((pairsOf blanked answers).map
          (fun q => specVerdict env (tokens.getD q.1 defaultTokenPart) q.2)) := by
  unfold checkAnswers
  induction blanked generalizing answers with
  | nil => rfl
  | cons bi rest ih =>
    have hbi : bi < tokens.length := hwf bi (by simp)
    have hrest : ∀ b ∈ rest, b < tokens.length := fun b hb => hwf b (by simp [hb])
    have hget : tokens.get? bi = some (tokens.getD bi defaultTokenPart) := by
      rw [List.get?_eq_getElem?, List.getElem?_eq_getElem hbi]
      rw [List.getD_eq_getElem?_getD, List.getElem?_eq_getElem hbi]
      rfl
    unfold checkAnswersGo
    rw [hget]
    dsimp only
    rw [ih answers.tail hrest]
    dsimp only
    rw [checkOne_eq_specVerdict]
    rfl

theorem perm_all_eq {α : Type} (f : α → Bool) {l₁ l₂ : List α}
    (h : l₁.Perm l₂) : l₁.all f = l₂.all f := by
  induction h with
  | nil => rfl
  | cons x h ih => simp [List.all_cons, ih]
  | swap x y l => simp [List.all_cons, Bool.and_left_comm]
  | trans h1 h2 ih1 ih2 => rw [ih1, ih2]

/-- C3: with a tokenizer present, the submit loop evaluates every blank,
producing exactly the list of three-tier verdicts in order; the overall
result is the conjunction of the per-blank verdicts; and the conjunction is
invariant under permuting the blank-answer pairs.  The display state after
handleSubmit carries exactly these verdicts and their conjunction. -/
theorem c3_validation_tiers (env : Env) (tokens : List TokenPart)
    (blanked : List Nat) (answers : List String)
    (hwf : ∀ bi ∈ blanked, bi < tokens.length) :
    checkAnswers env true tokens blanked answers
      = .ok ((pairsOf blanked answers).map
          (fun q => specVerdict env (tokens.getD q.1 defaultTokenPart) q.2)) ∧
    allCorrectOf env tokens blanked answers
      = some (((pairsOf blanked answers).map
          (fun q => specVerdict env (tokens.getD q.1 defaultTokenPart) q.2)).all
          (fun r => r)) ∧
    (∀ blanked2 answers2, (∀ bi ∈ blanked2, bi < tokens.length) →
       (pairsOf blanked2 answers2).Perm (pairsOf blanked answers) →
       allCorrectOf env tokens blanked2 answers2
         = allCorrectOf env tokens blanked answers) ∧
    (∀ now s sub ds, s.currentSubtitle = some sub →
       s.currentDisplayState = some ds →
       s.answerSubmitted = false → s.hasTokenizer = true →
       ds.tokens = tokens → ds.blankedIndices = blanked →
       (handleSubmit env now s answers).currentDisplayState
         = some { ds with
             userAnswers := answers,
             showingResult := true,
             resultCorrect := ((pairsOf blanked answers).map
               (fun q => specVerdict env (tokens.getD q.1 defaultTokenPart) q.2)).all
               (fun r => r),
             answerResults := some ((pairsOf blanked answers).map
               (fun q => specVerdict env (tokens.getD q.1 defaultTokenPart) q.2)) }) := by
  have hA := checkAnswers_eq_map env tokens blanked answers hwf
  refine ⟨hA, ?_, ?_, ?_⟩
  · unfold allCorrectOf
    rw [hA]
  · intro blanked2 answers2 hwf2 hperm
    unfold allCorrectOf
    rw [hA, checkAnswers_eq_map env tokens blanked2 answers2 hwf2]
    exact congrArg some (perm_all_eq (fun r => r)
      (hperm.map (fun q => specVerdict env (tokens.getD q.1 defaultTokenPart) q.2)))
  · intro now s sub ds hsub hds hansw htok htokens hblank
    unfold handleSubmit
    rw [hsub, hds]
    try dsimp only
    rw [if_neg (by simp [hansw])]
    try dsimp only
    rw [htokens, hblank, htok, hA]

theorem c3_validation_tiers_witness :
    checkAnswers demoEnv true [demoToken] [0] ["a"]
      = .ok ((pairsOf [0] ["a"]).map
          (fun q => specVerdict demoEnv ([demoToken].getD q.1 defaultTokenPart) q.2)) :=
  (c3_validation_tiers demoEnv [demoToken] [0] ["a"] (by decide)).1

/-- C7: submitting exactly the surface text of every blanked token makes
every per-blank verdict true (tier 1 accepts each blank), so the overall
result is correct, in every environment and whether or not a tokenizer is
available for tier 3. -/
theorem c7_surface_roundtrip (env : Env) (ht : Bool) (tokens : List TokenPart)
    (blanked : List Nat) (hwf : ∀ bi ∈ blanked, bi < tokens.length) :
    checkAnswers env ht tokens blanked
        (blanked.map (fun bi => (tokens.getD bi defaultTokenPart).text))
      = .ok (List.replicate blanked.length true) ∧
    (List.replicate blanked.length true).all (fun r => r) = true := by
  constructor
  · unfold checkAnswers
    induction blanked with
    | nil => rfl
    | cons bi rest ih =>
      have hbi : bi < tokens.length := hwf bi (by simp)
      have hrest : ∀ b ∈ rest, b < tokens.length := fun b hb => hwf b (by simp [hb])
      have hget : tokens.get? bi = some (tokens.getD bi defaultTokenPart) := by
        rw [List.get?_eq_getElem?, List.getElem?_eq_getElem hbi]
        rw [List.getD_eq_getElem?_getD, List.getElem?_eq_getElem hbi]
        rfl
      unfold checkAnswersGo
      rw [hget]
      dsimp only [List.map_cons, List.headD_cons, List.tail_cons]
      rw [ih hrest]
      have hone : checkOne env ht (tokens.getD bi defaultTokenPart)
          (tokens.getD bi defaultTokenPart).text = true := by
        unfold checkOne
        rw [if_pos rfl]
      rw [hone]
      rfl
  · simp

theorem c7_surface_roundtrip_witness :
    checkAnswers demoEnv true [demoToken] [0]
        ([0].map (fun bi => ([demoToken].getD bi defaultTokenPart).text))
      = .ok (List.replicate ([0] : List Nat).length true) :=
  (c7_surface_roundtrip demoEnv true [demoToken] [0] (by decide)).1
